import Mathlib

/-!
Verification of the chat widget in static/script.js.
The script wires three DOM elements (chat log, text input, send button) to a
single async handler sendMessage. We embed the script shallowly:

* jsTrim models String.prototype.trim (ASCII whitespace at both ends);
* replyText models the extraction expression
  data.answer || data.response || "No reply" over a JSON object whose
  optional fields are strings (the response shape documented for the
  backend); JS truthiness on a string is non-emptiness, on a missing field
  falsiness;
* ttRun models the setInterval loop inside typeText as a tick-indexed state;
* sendMessage produces the ordered trace of DOM/timer effects the handler
  performs for a given input value and transport outcome; a small
  interpreter finalLog replays the appends and removals on the chat log;
* stepU models the event loop at the granularity of user actions: a click
  on the send button is delivered only while the button is enabled, while
  the keydown listener on the input invokes the handler unconditionally.
-/

namespace Chatbot

/-- Model of JS String.prototype.trim: strip whitespace from both ends. -/
def jsTrim (s : String) : String :=
  String.mk (((s.data.dropWhile Char.isWhitespace).reverse.dropWhile
    Char.isWhitespace).reverse)

/-- The JSON response object shape the script reads: optional string fields
answer, response and source. -/
structure JSData where
  answer : Option String
  response : Option String
  source : Option String
deriving DecidableEq

/-- JS truthiness of an optional string field: a missing field is falsy and
a string is truthy exactly when non-empty. -/
def truthy : Option String → Bool
  | none => false
  | some s => s != ""

/-- JS a or-else b on optional string fields: a when truthy, else b. -/
def jsOr (a b : Option String) : Option String :=
  if truthy a then a else b

/-- The reply extraction expression of sendMessage:
data.answer or-else data.response or-else the literal No reply. -/
def replyText (d : JSData) : String :=
  (jsOr (jsOr d.answer d.response) (some "No reply")).getD ""

/-- The optional source annotation built in the success path: the string
space parenleft source parenright when the source field is truthy, else
the empty string. -/
def sourceNote (d : JSData) : String :=
  match d.source with
  | some s => if s != "" then " (" ++ s ++ ")" else ""
  | none => ""

/-- The extraction chain as the specification words it, amended for
truthiness: the primary field is used when present and non-empty, otherwise
the secondary field when present and non-empty, otherwise the literal. -/
def replySpecChain (d : JSData) : String :=
  match d.answer with
  | some a =>
      if a ≠ "" then a
      else
        match d.response with
        | some r => if r ≠ "" then r else "No reply"
        | none => "No reply"
  | none =>
      match d.response with
      | some r => if r ≠ "" then r else "No reply"
      | none => "No reply"

/-- JS String.prototype.charAt as used in typeText: the one-character string
at index i, or the empty string when i is out of range. Reply text is
modelled as a list of characters. -/
def charAt (s : List Char) (i : Nat) : List Char := (s[i]?).toList

/-- The state of one typeText call: the counter i, the accumulated element
text, whether clearInterval has run, and whether the promise has resolved. -/
structure TTState where
  i : Nat
  elementText : List Char
  timerCleared : Bool
  resolved : Bool
deriving DecidableEq

/-- typeText first sets the element text to empty, the counter to zero, and
the promise is unresolved. -/
def ttInit : TTState := TTState.mk 0 [] false false

/-- One firing of the setInterval callback in typeText: append charAt text i
to the element text, increment i, and when i has reached the length clear
the interval and resolve the promise. A cleared timer no longer fires. -/
def ttTick (text : List Char) (s : TTState) : TTState :=
  if s.timerCleared then s
  else
    let el := s.elementText ++ charAt text s.i
    let i := s.i + 1
    if text.length ≤ i then TTState.mk i el true true
    else TTState.mk i el false false

/-- The typeText state after t ticks of the interval timer. -/
def ttRun (text : List Char) : Nat → TTState
  | 0 => ttInit
  | t + 1 => ttTick text (ttRun text t)

/-- The role class addMessage attaches to a log entry. -/
inductive Role
  | user
  | bot
deriving DecidableEq

/-- The ordered effects sendMessage performs on the DOM and timers. -/
inductive Ev
  | disableSend
  | appendMessage (text : String) (role : Role)
  | clearInput
  | appendTypingPlaceholder
  | startTypingTimer
  | issueFetch (body : String)
  | cancelTypingTimer
  | removeTypingPlaceholder
  | appendBotContainer
  | revealReply (text : String)
  | appendSourceNote (note : String)
  | enableSend
deriving DecidableEq

/-- Outcome of await res.json on a resolved fetch: a parsed JSON object, or
a rejection with an error message (non-JSON body). -/
inductive JsonBody
  | parsed (d : JSData)
  | invalid (msg : String)
deriving DecidableEq

/-- Outcome of the fetch call: a network-level rejection with an error
message, or a response with an HTTP status code and a body. fetch resolves
for every received response regardless of status. -/
inductive Transport
  | netError (msg : String)
  | response (status : Nat) (body : JsonBody)
deriving DecidableEq

/-- The fixed error marker prepended to the failure message. -/
def errMarker : String := "⚠️ Error connecting to server: "

/-- The message carried by the failure path, when the transport fails: the
rejection message of fetch or of res.json. A response whose body parses
carries no failure, whatever its status. -/
def failureMsg : Transport → Option String
  | Transport.netError m => some m
  | Transport.response _ (JsonBody.invalid m) => some m
  | Transport.response _ (JsonBody.parsed _) => none

/-- The trace of effects of one sendMessage call, given the input field
value and the transport outcome. Mirrors the source: trim, early return on
empty text, disable button, append user message, clear input, start the
typing indicator, fetch; then either the success path (cancel timer, remove
placeholder, append bot container, reveal extracted reply, append source
annotation) or the catch path (cancel timer, remove placeholder, append the
marked error message); finally re-enable the button. The status of a
response is never inspected. -/
def sendMessage (inputVal : String) (tr : Transport) : List Ev :=
  if jsTrim inputVal = "" then []
  else
    [Ev.disableSend, Ev.appendMessage (jsTrim inputVal) Role.user,
     Ev.clearInput, Ev.appendTypingPlaceholder, Ev.startTypingTimer,
     Ev.issueFetch (jsTrim inputVal)] ++
    (match tr with
     | Transport.netError m =>
         [Ev.cancelTypingTimer, Ev.removeTypingPlaceholder,
          Ev.appendMessage (errMarker ++ m) Role.bot]
     | Transport.response _ (JsonBody.invalid m) =>
         [Ev.cancelTypingTimer, Ev.removeTypingPlaceholder,
          Ev.appendMessage (errMarker ++ m) Role.bot]
     | Transport.response _ (JsonBody.parsed d) =>
         [Ev.cancelTypingTimer, Ev.removeTypingPlaceholder,
          Ev.appendBotContainer, Ev.revealReply (replyText d),
          Ev.appendSourceNote (sourceNote d)]) ++
    [Ev.enableSend]

def isUserMsg : Ev → Bool
  | Ev.appendMessage _ Role.user => true
  | _ => false

def isBotMsg : Ev → Bool
  | Ev.appendMessage _ Role.bot => true
  | _ => false

/-- An append of the bot message of the cycle: the revealed-reply container
on the success path or the error entry on the failure path. -/
def isBotAppend : Ev → Bool
  | Ev.appendMessage _ Role.bot => true
  | Ev.appendBotContainer => true
  | _ => false

def isStartTimer : Ev → Bool
  | Ev.startTypingTimer => true
  | _ => false

def isCancelTimer : Ev → Bool
  | Ev.cancelTypingTimer => true
  | _ => false

def isRemovePlaceholder : Ev → Bool
  | Ev.removeTypingPlaceholder => true
  | _ => false

def isFetch : Ev → Bool
  | Ev.issueFetch _ => true
  | _ => false

def isReveal : Ev → Bool
  | Ev.revealReply _ => true
  | _ => false

/-- Number of events satisfying p in a trace. -/
def countEv (p : Ev → Bool) : List Ev → Nat
  | [] => 0
  | e :: es => (if p e then 1 else 0) + countEv p es

/-- Index of the first event satisfying p (length when none does). -/
def firstIdx (p : Ev → Bool) : List Ev → Nat
  | [] => 0
  | e :: es => if p e then 0 else firstIdx p es + 1

/-- Whether the send button is disabled after replaying a trace, starting
from the enabled state. -/
def disabledAfter (t : List Ev) : Bool :=
  t.foldl (fun b e =>
    match e with
    | Ev.disableSend => true
    | Ev.enableSend => false
    | _ => b) false

/-- An element of the chat log container: a finished message div, the
typing-indicator placeholder div, or the bot container div the success path
fills by the reveal animation. The small source annotation appended inside
the bot container is not part of the log list. -/
inductive Entry
  | msg (text : String) (role : Role)
  | typingPlaceholder
  | botContainer (text : String)
deriving DecidableEq

def isPlaceholder : Entry → Bool
  | Entry.typingPlaceholder => true
  | _ => false

def isBotEntry : Entry → Bool
  | Entry.msg _ Role.bot => true
  | Entry.botContainer _ => true
  | _ => false

/-- Set the text of the last log element when it is the bot container. -/
def updateLastBot (s : String) : List Entry → List Entry
  | [] => []
  | [Entry.botContainer _] => [Entry.botContainer s]
  | [e] => [e]
  | e :: e2 :: es => e :: updateLastBot s (e2 :: es)

/-- Replay one trace event on the chat log list. -/
def applyLog (log : List Entry) : Ev → List Entry
  | Ev.appendMessage t r => log ++ [Entry.msg t r]
  | Ev.appendTypingPlaceholder => log ++ [Entry.typingPlaceholder]
  | Ev.removeTypingPlaceholder => log.filter (fun e => !(isPlaceholder e))
  | Ev.appendBotContainer => log ++ [Entry.botContainer ""]
  | Ev.revealReply s => updateLastBot s log
  | _ => log

/-- The chat log after replaying a whole trace on an empty log. -/
def finalLog (t : List Ev) : List Entry := t.foldl applyLog []

/-- Number of log elements satisfying p. -/
def countEntry (p : Entry → Bool) : List Entry → Nat
  | [] => 0
  | e :: es => (if p e then 1 else 0) + countEntry p es

/-- The page state the click and keydown listeners act on: the input field
value, the disabled flag of the send button, and the number of exchanges in
flight. -/
structure SysState where
  inputVal : String
  sendDisabled : Bool
  pending : Nat
deriving DecidableEq

/-- On page load the input is empty, the button enabled, nothing pending. -/
def initState : SysState := SysState.mk "" false 0

/-- The synchronous head of sendMessage: trim the input; on empty text
return unchanged; otherwise clear the input, disable the button and issue
the exchange (one more pending request). -/
def startSend (st : SysState) : SysState :=
  if jsTrim st.inputVal = "" then st
  else SysState.mk "" true (st.pending + 1)

/-- User-visible events: editing the input, clicking the send button,
pressing Enter in the input, and the completion of a pending exchange. -/
inductive UAct
  | typeInput (s : String)
  | clickSend
  | pressEnter
  | respond
deriving DecidableEq

/-- One event-loop step. A click on a disabled button is not delivered, so
the click listener runs only while the button is enabled; the keydown
listener on the input runs sendMessage unconditionally. Completion of an
exchange re-enables the button. -/
def stepU (st : SysState) : UAct → SysState
  | UAct.typeInput s => SysState.mk s st.sendDisabled st.pending
  | UAct.clickSend => if st.sendDisabled then st else startSend st
  | UAct.pressEnter => startSend st
  | UAct.respond =>
      if st.pending = 0 then st
      else SysState.mk st.inputVal false (st.pending - 1)

/-- The state after a sequence of events, starting from page load. -/
def runSys (acts : List UAct) : SysState := acts.foldl stepU initState

/-- The guard invariant of click-driven sessions: at most one exchange in
flight, and none while the button is enabled. -/
def sysInv (st : SysState) : Prop :=
  st.pending ≤ 1 ∧ (st.sendDisabled = false → st.pending = 0)

/-- C3 counterexample: with answer present but empty and response B, the
displayed text is B, not the present primary field answer. -/
theorem c3_counterexample :
    (JSData.mk (some "") (some "B") none).answer = some "" ∧
    replyText (JSData.mk (some "") (some "B") none) = "B" := by
  constructor
  · rfl
  · rfl

/-- C3 (amended): the displayed reply follows the fallback chain with the
fields tested for truthiness (present and non-empty) rather than bare
presence: answer when present and non-empty, else response when present and
non-empty, else the literal No reply; when both are present and non-empty
the primary field wins. -/
theorem c3_amended (d : JSData) : replyText d = replySpecChain d := by
  rcases d with ⟨a, r, s⟩
  cases a <;> cases r <;>
    simp [replyText, replySpecChain, jsOr, truthy] <;>
    split_ifs <;> simp_all

/-- C10: reply extraction selects by truthiness, not by field presence:
when answer is present but falsy (the empty string), the reply is taken
from response when that is truthy; when response is also falsy or missing
the literal No reply is displayed; and the displayed reply is never falsy. -/
theorem c10_truthiness (d : JSData) :
    (d.answer = some "" → ∀ r, d.response = some r → r ≠ "" → replyText d = r) ∧
    (d.answer = some "" → (d.response = none ∨ d.response = some "") →
      replyText d = "No reply") ∧
    replyText d ≠ "" := by
  rcases d with ⟨a, r, s⟩
  refine ⟨?_, ?_, ?_⟩
  · rintro rfl r' rfl hr'
    simp [replyText, jsOr, truthy, hr']
  · rintro rfl hr
    rcases hr with rfl | rfl <;> simp [replyText, jsOr, truthy]
  · cases a <;> cases r <;>
      simp [replyText, jsOr, truthy] <;> split_ifs <;> simp_all

/-- C10 witness: with answer empty and response B, the displayed reply is B. -/
theorem c10_truthiness_witness :
    replyText (JSData.mk (some "") (some "B") none) = "B" :=
  (c10_truthiness (JSData.mk (some "") (some "B") none)).1 rfl "B" rfl (by decide)

lemma ttRun_spec (text : List Char) (t : Nat) :
    (ttRun text t).elementText = text.take t ∧
    (ttRun text t).i = min t (max text.length 1) ∧
    ((ttRun text t).timerCleared = true ↔ max text.length 1 ≤ t) ∧
    ((ttRun text t).resolved = true ↔ max text.length 1 ≤ t) := by
  induction t with
  | zero =>
      refine ⟨rfl, by simp [ttRun, ttInit], ?_, ?_⟩ <;>
        simp [ttRun, ttInit]
  | succ t ih =>
      obtain ⟨h1, h2, h3, h4⟩ := ih
      by_cases hc : max text.length 1 ≤ t
      · have hcl : (ttRun text t).timerCleared = true := h3.mpr hc
        have hres : (ttRun text t).resolved = true := h4.mpr hc
        have hlen : text.length ≤ t := le_trans (le_max_left _ _) hc
        refine ⟨?_, ?_, ?_, ?_⟩ <;>
          simp [ttRun, ttTick, hcl, h1, h2, hres, List.take_of_length_le hlen,
            List.take_of_length_le (le_trans hlen (Nat.le_succ t))] <;> omega
      · have hcl : (ttRun text t).timerCleared = false := by
          cases hb : (ttRun text t).timerCleared
          · rfl
          · exact absurd (h3.mp hb) hc
        have hit : (ttRun text t).i = t := by rw [h2]; omega
        have htake : text.take t ++ charAt text t = text.take (t + 1) := by
          rw [List.take_succ]; rfl
        by_cases hd : text.length ≤ t + 1
        · refine ⟨?_, ?_, ?_, ?_⟩ <;>
            simp [ttRun, ttTick, hcl, h1, hit, hd, htake] <;> omega
        · refine ⟨?_, ?_, ?_, ?_⟩ <;>
            simp [ttRun, ttTick, hcl, h1, hit, hd, htake] <;> omega

/-- C4 counterexample: for empty reply text the promise is not resolved at
tick zero (completion is not immediate); it resolves only after the first
tick, which appends no character. -/
theorem c4_counterexample :
    (ttRun [] 0).resolved = false ∧ (ttRun [] 1).resolved = true ∧
    (ttRun [] 1).elementText = [] := by
  refine ⟨rfl, rfl, rfl⟩

/-- C4 (amended): typeText first clears the element text; after t ticks the
element text is the first t characters of the reply, so it grows by exactly
one character per tick and equals the full reply after N ticks; the promise
is resolved exactly from tick max N 1 on, so for N at least 1 it resolves
only after the final character, while for N = 0 the element text equals the
empty full text throughout but resolution happens after one empty tick
rather than immediately. -/
theorem c4_amended (text : List Char) (t : Nat) :
    (ttRun text 0).elementText = [] ∧
    (ttRun text t).elementText = text.take t ∧
    (ttRun text text.length).elementText = text ∧
    ((ttRun text t).resolved = true ↔ max text.length 1 ≤ t) := by
  refine ⟨rfl, (ttRun_spec text t).1, ?_, (ttRun_spec text t).2.2.2⟩
  rw [(ttRun_spec text text.length).1, List.take_length]

/-- C2 counterexample: a response with HTTP status 500 whose body parses as
a JSON object with answer A runs the success path: the reply A is revealed
and no error message is appended, against the claim that every non-2xx
status takes the failure path. -/
theorem c2_counterexample :
    Ev.revealReply "A" ∈
      sendMessage "hi" (Transport.response 500
        (JsonBody.parsed (JSData.mk (some "A") none none))) ∧
    countEv isBotMsg
      (sendMessage "hi" (Transport.response 500
        (JsonBody.parsed (JSData.mk (some "A") none none)))) = 0 := by
  constructor
  · simp [sendMessage, jsTrim, replyText, jsOr, truthy]
  · decide

/-- C2 (amended): the failure path runs exactly for transport failures that
the code can observe: a network failure (fetch rejects) or a non-JSON body
(res.json rejects). It appends the marked human-readable message and the
success path (reveal) is not executed. The HTTP status is never inspected,
so any response whose body parses as JSON, non-2xx included, takes the
success path and appends no error message. -/
theorem c2_amended (inputVal : String) (tr : Transport)
    (h : jsTrim inputVal ≠ "") :
    (∀ m, failureMsg tr = some m →
      Ev.appendMessage (errMarker ++ m) Role.bot ∈ sendMessage inputVal tr ∧
      countEv isReveal (sendMessage inputVal tr) = 0) ∧
    (∀ s d, tr = Transport.response s (JsonBody.parsed d) →
      Ev.revealReply (replyText d) ∈ sendMessage inputVal tr ∧
      countEv isBotMsg (sendMessage inputVal tr) = 0) := by
  constructor
  · rintro m hm
    rcases tr with m' | ⟨s, d | m'⟩ <;> simp [failureMsg] at hm <;> subst hm <;>
      simp only [sendMessage, if_neg h] <;>
      exact ⟨by simp, rfl⟩
  · rintro s d rfl
    simp only [sendMessage, if_neg h]
    exact ⟨by simp, rfl⟩

/-- C2 witness: a network failure with message timeout appends the marked
error message. -/
theorem c2_amended_witness :
    Ev.appendMessage (errMarker ++ "timeout") Role.bot ∈
      sendMessage "hi" (Transport.netError "timeout") :=
  (((c2_amended "hi" (Transport.netError "timeout") (by decide)).1)
    "timeout" rfl).1

/-- C5: in every submit cycle, on the success path and on the failure path
alike, the typing-indicator timer is cancelled and its placeholder removed
strictly before the bot message of the cycle (reveal container or error
entry) is appended, and exactly as many timers are cancelled as started, so
no timer is leaked after cycle completion. -/
theorem c5_timer_cancelled (inputVal : String) (tr : Transport)
    (h : jsTrim inputVal ≠ "") :
    countEv isStartTimer (sendMessage inputVal tr) = 1 ∧
    countEv isCancelTimer (sendMessage inputVal tr) = 1 ∧
    firstIdx isCancelTimer (sendMessage inputVal tr) <
      firstIdx isBotAppend (sendMessage inputVal tr) ∧
    firstIdx isRemovePlaceholder (sendMessage inputVal tr) <
      firstIdx isBotAppend (sendMessage inputVal tr) ∧
    firstIdx isBotAppend (sendMessage inputVal tr) <
      (sendMessage inputVal tr).length := by
  rcases tr with m | ⟨s, d | m⟩ <;> simp only [sendMessage, if_neg h] <;>
    exact ⟨rfl, rfl, of_decide_eq_true rfl, of_decide_eq_true rfl,
      of_decide_eq_true rfl⟩

/-- C5 witness: on a failed cycle exactly one cancel happens and it
precedes the bot message append. -/
theorem c5_timer_cancelled_witness :
    countEv isCancelTimer (sendMessage "hi" (Transport.netError "x")) = 1 ∧
    firstIdx isCancelTimer (sendMessage "hi" (Transport.netError "x")) <
      firstIdx isBotAppend (sendMessage "hi" (Transport.netError "x")) := by
  have hx := c5_timer_cancelled "hi" (Transport.netError "x") (by decide)
  exact ⟨hx.2.1, hx.2.2.1⟩

/-- C6: for every cycle with non-empty trimmed input, replaying any proper
non-empty prefix of the trace leaves the send button disabled, and
replaying the empty prefix or the whole trace leaves it enabled: the button
is disabled from the start of submit until cycle completion and re-enabled
at completion on success and failure alike. -/
theorem c6_disabled_during_cycle (inputVal : String) (tr : Transport)
    (h : jsTrim inputVal ≠ "") :
    ∀ k, k ≤ (sendMessage inputVal tr).length →
      (disabledAfter ((sendMessage inputVal tr).take k) = true ↔
        (1 ≤ k ∧ k < (sendMessage inputVal tr).length)) := by
  intro k hk
  rcases tr with m | ⟨s, d | m⟩ <;>
    simp only [sendMessage, if_neg h] at hk ⊢ <;>
    simp at hk <;>
    interval_cases k <;>
    exact of_decide_eq_true rfl

/-- C6 witness: three events into a failed cycle the button is disabled,
and after the whole cycle it is enabled again. -/
theorem c6_disabled_during_cycle_witness :
    disabledAfter ((sendMessage "hi" (Transport.netError "x")).take 3) = true := by
  have hx := c6_disabled_during_cycle "hi" (Transport.netError "x")
    (by decide) 3 (by decide)
  exact hx.mpr (by decide)

lemma stepU_inv {st : SysState} {a : UAct} (h : sysInv st)
    (ha : a ≠ UAct.pressEnter) : sysInv (stepU st a) := by
  obtain ⟨h1, h2⟩ := h
  cases a with
  | typeInput s => exact ⟨h1, h2⟩
  | pressEnter => exact absurd rfl ha
  | clickSend =>
      by_cases hd : st.sendDisabled = true
      · simp only [stepU, hd, if_true]
        exact ⟨h1, h2⟩
      · have hd' : st.sendDisabled = false := by
          cases hb : st.sendDisabled
          · rfl
          · exact absurd hb hd
        have hp : st.pending = 0 := h2 hd'
        simp only [stepU, hd', Bool.false_eq_true, if_false]
        unfold startSend
        by_cases ht : jsTrim st.inputVal = ""
        · simp only [ht, if_true]
          exact ⟨h1, h2⟩
        · simp only [ht, if_false]
          constructor
          · simp [hp]
          · intro hq
            simp at hq
  | respond =>
      by_cases hp : st.pending = 0
      · simp only [stepU, hp, if_true]
        exact ⟨h1, h2⟩
      · simp only [stepU, hp, if_false]
        constructor
        · show st.pending - 1 ≤ 1
          omega
        · intro _
          show st.pending - 1 = 0
          omega

lemma foldl_stepU_inv (acts : List UAct) (st : SysState) (h : sysInv st)
    (hno : UAct.pressEnter ∉ acts) : sysInv (acts.foldl stepU st) := by
  induction acts generalizing st with
  | nil => exact h
  | cons a as ih =>
      rw [List.foldl_cons]
      have hna : a ≠ UAct.pressEnter := by
        intro he
        exact hno (by simp [he])
      have hnm : UAct.pressEnter ∉ as := fun hm =>
        hno (List.mem_cons_of_mem _ hm)
      exact ih (stepU st a) (stepU_inv h hna) hnm

/-- C1 counterexample: typing and pressing Enter twice, with no response in
between, initiates a second exchange while the first is pending: after the
first Enter one request is in flight, and the second Enter, delivered to
the keydown listener regardless of the disabled button, makes it two. -/
theorem c1_counterexample :
    (runSys [UAct.typeInput "hi", UAct.pressEnter]).pending = 1 ∧
    (runSys [UAct.typeInput "hi", UAct.pressEnter, UAct.typeInput "yo",
      UAct.pressEnter]).pending = 2 := by
  exact ⟨rfl, rfl⟩

/-- C1 (amended): the busy guard is the disabled attribute of the send
button and restrains only clicks: for every sequence of user events that
contains no Enter keypress, at most one exchange is ever in flight; but the
keydown listener invokes sendMessage unconditionally, so an Enter keypress
is not subject to the busy guard and can initiate a second exchange while
one is pending. -/
theorem c1_amended :
    (∀ acts : List UAct, UAct.pressEnter ∉ acts →
      (runSys acts).pending ≤ 1) ∧
    (∀ st : SysState, stepU st UAct.pressEnter = startSend st) := by
  constructor
  · intro acts hno
    have hinit : sysInv initState := ⟨by decide, fun _ => rfl⟩
    exact (foldl_stepU_inv acts initState hinit hno).1
  · intro st
    rfl

/-- C1 witness: a click-and-respond session keeps at most one exchange in
flight. -/
theorem c1_amended_witness :
    (runSys [UAct.typeInput "hi", UAct.clickSend, UAct.respond]).pending ≤ 1 :=
  c1_amended.1 [UAct.typeInput "hi", UAct.clickSend, UAct.respond] (by decide)

/-- C7: submit on empty or whitespace-only input is a no-op: the trace of
sendMessage is empty (no message appended, no exchange issued, no timer or
button change) and the synchronous head of the handler leaves the page
state unchanged. -/
theorem c7_empty_noop (inputVal : String) (tr : Transport) (st : SysState)
    (h : jsTrim inputVal = "") (hst : st.inputVal = inputVal) :
    sendMessage inputVal tr = [] ∧ startSend st = st := by
  constructor
  · simp [sendMessage, h]
  · unfold startSend
    rw [hst, h]
    simp

/-- C7 witness: a whitespace-only input produces no effects. -/
theorem c7_empty_noop_witness :
    sendMessage "   " (Transport.netError "x") = [] ∧
    startSend (SysState.mk "   " false 0) = SysState.mk "   " false 0 :=
  c7_empty_noop "   " (Transport.netError "x") (SysState.mk "   " false 0)
    (by decide) rfl

/-- C8: for every failure of the exchange carrying message m, the chat log
at cycle completion holds exactly the user message and one bot-role entry
whose text is the fixed error marker concatenated with m. -/
theorem c8_failure_entry (inputVal : String) (tr : Transport) (m : String)
    (h : jsTrim inputVal ≠ "") (hm : failureMsg tr = some m) :
    finalLog (sendMessage inputVal tr) =
      [Entry.msg (jsTrim inputVal) Role.user,
       Entry.msg (errMarker ++ m) Role.bot] ∧
    countEntry isBotEntry (finalLog (sendMessage inputVal tr)) = 1 := by
  rcases tr with m' | ⟨s, d | m'⟩ <;> simp only [failureMsg] at hm
  · obtain rfl : m' = m := Option.some.inj hm
    simp only [sendMessage, if_neg h]
    exact ⟨rfl, rfl⟩
  · exact absurd hm (by simp)
  · obtain rfl : m' = m := Option.some.inj hm
    simp only [sendMessage, if_neg h]
    exact ⟨rfl, rfl⟩

/-- C8 witness: a network rejection with message timeout leaves the log
with the user message and the single marked bot entry. -/
theorem c8_failure_entry_witness :
    finalLog (sendMessage "hi" (Transport.netError "timeout")) =
      [Entry.msg "hi" Role.user,
       Entry.msg (errMarker ++ "timeout") Role.bot] := by
  have hx := c8_failure_entry "hi" (Transport.netError "timeout") "timeout"
    (by decide) rfl
  calc finalLog (sendMessage "hi" (Transport.netError "timeout"))
      = [Entry.msg (jsTrim "hi") Role.user,
         Entry.msg (errMarker ++ "timeout") Role.bot] := hx.1
    _ = [Entry.msg "hi" Role.user,
         Entry.msg (errMarker ++ "timeout") Role.bot] := by rfl

/-- C9: for every non-empty trimmed input, sendMessage appends exactly one
user-role message and does so strictly before issuing the outbound fetch,
which is issued exactly once; so in the trace the user message precedes the
exchange and hence every later bot placeholder and bot response. -/
theorem c9_user_before_fetch (inputVal : String) (tr : Transport)
    (h : jsTrim inputVal ≠ "") :
    countEv isUserMsg (sendMessage inputVal tr) = 1 ∧
    countEv isFetch (sendMessage inputVal tr) = 1 ∧
    firstIdx isUserMsg (sendMessage inputVal tr) <
      firstIdx isFetch (sendMessage inputVal tr) ∧
    firstIdx isFetch (sendMessage inputVal tr) <
      (sendMessage inputVal tr).length := by
  rcases tr with m | ⟨s, d | m⟩ <;> simp only [sendMessage, if_neg h] <;>
    exact ⟨rfl, rfl, of_decide_eq_true rfl, of_decide_eq_true rfl⟩

/-- C9 witness: with input hi, the user message is appended once and before
the fetch. -/
theorem c9_user_before_fetch_witness :
    countEv isUserMsg (sendMessage "hi" (Transport.netError "x")) = 1 ∧
    firstIdx isUserMsg (sendMessage "hi" (Transport.netError "x")) <
      firstIdx isFetch (sendMessage "hi" (Transport.netError "x")) := by
  have hx := c9_user_before_fetch "hi" (Transport.netError "x") (by decide)
  exact ⟨hx.1, hx.2.2.1⟩

end Chatbot
